import Mathlib

/-!
Verification of the procedural placement and animation core of the
christmas-tree scene application.

The definitions below are a shallow embedding of the TypeScript source:
numbers are modelled as exact rationals (ℚ) — or reals (ℝ) where the code
uses `Math.PI` / `Math.sin` — random draws are abstracted as an explicit
stream of candidate values, and each per-frame mutation is an explicit
state-passing function.
-/

namespace ChristmasTree

/-- Scene mode: the two-valued global state `'CHAOS' | 'FORMED'`. -/
inductive SceneMode where
  | CHAOS
  | FORMED
deriving DecidableEq, Repr

/-- A 3D vector with exact rational coordinates (models THREE.Vector3). -/
structure Vec3 where
  x : ℚ
  y : ℚ
  z : ℚ
deriving DecidableEq, Repr

/-- THREE.Vector3.lerp: `this.x += (v.x - this.x) * alpha`, componentwise,
with NO clamping of alpha. -/
def lerp3 (p q : Vec3) (t : ℚ) : Vec3 :=
  ⟨p.x + (q.x - p.x) * t, p.y + (q.y - p.y) * t, p.z + (q.z - p.z) * t⟩

/-- `r` lies on the straight segment from `p` to `q`. -/
def onSegment (p q r : Vec3) : Prop :=
  ∃ s : ℚ, 0 ≤ s ∧ s ≤ 1 ∧ r = lerp3 p q s

/-- Foliage per-frame position update (`OrnamentTree` useFrame):
`lerpFactor = delta * 2.0; dummy.position.lerp(target, lerpFactor)`. -/
def foliageUpdate (cur target : Vec3) (delta : ℚ) : Vec3 :=
  lerp3 cur target (delta * 2)

/-- Photo-ornament per-frame position update (`PhotoOrnaments` useFrame):
`objData.currentPos.lerp(target, delta * 2.0)`. -/
def photoUpdate (cur target : Vec3) (delta : ℚ) : Vec3 :=
  lerp3 cur target (delta * 2)

/-- Fairy-light per-frame position update (`FairyLights` useFrame):
`objData.currentPos.lerp(target, delta * 2.5)`. -/
def lightUpdate (cur target : Vec3) (delta : ℚ) : Vec3 :=
  lerp3 cur target (delta * (5 / 2))

/-- Modelled from the spec (§4.2), for comparison with the code's updates:
`currentPosition ← lerp(currentPosition, target, clamp(delta * rate, 0, 1))`. -/
def specClampedUpdate (rate : ℚ) (cur target : Vec3) (delta : ℚ) : Vec3 :=
  lerp3 cur target (min (max (delta * rate) 0) 1)

/-- `createConfig` / the `config` useMemo: `counts.foliage = 500`. -/
def configFoliageCount : ℕ := 500

/-- `createConfig` / the `config` useMemo: `counts.ornaments = 50`. -/
def configOrnamentCap : ℕ := 50

/-- `createConfig` / the `config` useMemo: `counts.lights = 200`. -/
def configLightCount : ℕ := 200

/-- `PhotoOrnaments`: `count = state === 'CHAOS' ? textures.length
: Math.min(config.counts.ornaments, textures.length)`. -/
def photoOrnamentCount (state : SceneMode) (numTextures : ℕ) : ℕ :=
  if state = SceneMode.CHAOS then numTextures
  else min configOrnamentCap numTextures

/-- `OrnamentTree` useFrame: `scaleBase = 0.4 + (i % 5) * 0.1`. -/
def scaleBase (i : ℕ) : ℚ :=
  0.4 + (i % 5 : ℕ) * 0.1

/-- `GestureController`: gesture classification step on the scene mode.
`if (score > 0.4) { if (name === "Open_Palm") onGesture("CHAOS");
if (name === "Closed_Fist") onGesture("FORMED"); }`, where `onGesture`
is `setSceneState`. -/
def gestureStep (mode : SceneMode) (label : String) (score : ℚ) : SceneMode :=
  if 0.4 < score then
    let m1 := if label = "Open_Palm" then SceneMode.CHAOS else mode
    if label = "Closed_Fist" then SceneMode.FORMED else m1
  else mode

/-- `GestureController`: `SENSITIVITY = 5.0`. -/
def SENSITIVITY : ℚ := 5

/-- `GestureController`: `deadzone = 0.002`. -/
def deadzone : ℚ := 0.002

/-- A 2D hand landmark position (normalized frame coordinates). -/
structure HandPos where
  x : ℚ
  y : ℚ
deriving DecidableEq, Repr

/-- `GestureController`: the angular-velocity signal emitted from two
consecutive hand samples: `deltaX = (hand.x - last.x) * SENSITIVITY;
deltaY = (hand.y - last.y) * SENSITIVITY;
finalX = Math.abs(deltaX) > deadzone ? deltaX : 0;
onMove({ x: finalX, y: -deltaY })`. -/
def emitMove (last cur : HandPos) : ℚ × ℚ :=
  let deltaX := (cur.x - last.x) * SENSITIVITY
  let deltaY := (cur.y - last.y) * SENSITIVITY
  let finalX := if deadzone < |deltaX| then deltaX else 0
  (finalX, -deltaY)

/-- Shake-to-snow state (`GrandTreeApp` devicemotion handler): the retained
previous acceleration sample, the snow flag, and the pending clear-timer
delay in seconds (`setTimeout(..., 5000)` modelled as `some 5`). -/
structure ShakeState where
  last : Option (ℚ × ℚ × ℚ)
  snowing : Bool
  timer : Option ℚ
deriving DecidableEq, Repr

/-- `handleMotion`: with a previous sample retained, if
`|Δx| + |Δy| + |Δz| > 25` set the snow flag and (re)start the 5-second
clear timer; in every case retain the new sample as `last`. -/
def handleMotion (st : ShakeState) (x y z : ℚ) : ShakeState :=
  match st.last with
  | some (lx, ly, lz) =>
      if 25 < |x - lx| + |y - ly| + |z - lz| then
        { last := some (x, y, z), snowing := true, timer := some 5 }
      else
        { st with last := some (x, y, z) }
  | none => { st with last := some (x, y, z) }

/-- `OrnamentTree`: `MIN_DISTANCE = 2.0`. -/
def MIN_DISTANCE : ℚ := 2

/-- Squared Euclidean distance, as computed by the placement loop:
`dx*dx + dy*dy + dz*dz`. -/
def distSq (p q : Vec3) : ℚ :=
  (p.x - q.x) ^ 2 + (p.y - q.y) ^ 2 + (p.z - q.z) ^ 2

/-- The validity check of the placement loop: the candidate is invalid when
some already placed point is at squared distance `< MIN_DISTANCE²`. -/
def anyClose (c : Vec3) (placed : List Vec3) : Bool :=
  placed.any (fun p => decide (distSq c p < MIN_DISTANCE ^ 2))

/-- The inner `while (!valid && attempts < 50)` loop of `OrnamentTree`:
draws candidates `gen k, gen (k+1), …` from the abstract random stream,
accepts the first one no closer than `MIN_DISTANCE` to any placed point,
and after exhausting the attempt budget returns the last candidate with a
`false` validity flag. Returns (candidate, valid, next stream index). -/
def attemptLoop (gen : ℕ → Vec3) (placed : List Vec3) :
    ℕ → ℕ → Vec3 × Bool × ℕ
  | k, 0 => (gen k, false, k + 1)
  | k, fuel + 1 =>
      let c := gen k
      if anyClose c placed then
        if fuel = 0 then (c, false, k + 1)
        else attemptLoop gen placed (k + 1) fuel
      else (c, true, k + 1)

/-- The outer `for (let i = 0; i < count; i++)` placement loop of
`OrnamentTree`: each point gets up to 50 attempts; the point is pushed
onto `placedPositions` whether the check succeeded or the fallback fired.
The accumulator holds (point, valid-flag) pairs newest-first; the result
is in placement order. -/
def placeAux (gen : ℕ → Vec3) : ℕ → List (Vec3 × Bool) → ℕ → List (Vec3 × Bool)
  | 0, acc, _ => acc.reverse
  | n + 1, acc, k =>
      let r := attemptLoop gen (acc.map Prod.fst) k 50
      placeAux gen n ((r.1, r.2.1) :: acc) r.2.2

/-- Foliage target placement (`OrnamentTree` useMemo), for an abstract
stream of candidate draws. -/
def placePoints (gen : ℕ → Vec3) (count : ℕ) : List (Vec3 × Bool) :=
  placeAux gen count [] 0

/-- Real Euclidean distance between two placed points. -/
noncomputable def distE (p q : Vec3) : ℝ :=
  Real.sqrt ((distSq p q : ℚ) : ℝ)

/-- `Experience` useFrame, polar-angle part, over any linear ordered field
(instantiated at ℝ with `piv = Real.pi` below):
`newPolar = polar + cameraSpeed.y;
if (newPolar > 0.1 && newPolar < Math.PI - 0.1) setPolarAngle(newPolar)`. -/
def polarStep {α : Type} [LinearOrderedField α] (piv polar dy : α) : α :=
  let newPolar := polar + dy
  if 1 / 10 < newPolar ∧ newPolar < piv - 1 / 10 then newPolar else polar

/-- A sequence of per-frame polar-angle updates. -/
def polarRun {α : Type} [LinearOrderedField α] (piv polar : α) (dys : List α) : α :=
  dys.foldl (polarStep piv) polar

/-- `FairyLights` useFrame: `intensity = (Math.sin(time * speed + offset) + 1) / 2;
emissiveIntensity = isFormed ? 2 + intensity * 3 : 0`. -/
noncomputable def lightIntensity (mode : SceneMode) (t speed offset : ℝ) : ℝ :=
  let intensity := (Real.sin (t * speed + offset) + 1) / 2
  if mode = SceneMode.FORMED then 2 + intensity * 3 else 0

/-! ## Theorems -/

/-- Claim C1, counterexample: the code's update is an UNCLAMPED lerp, so at
delta = 1 (a frame delta ≥ 0) the foliage update starting at the origin with
target (1,0,0) lands at (2,0,0): it differs from the spec's clamped formula
and does not lie on the segment between the old position and the target
(it overshoots). -/
theorem foliage_update_overshoots :
    (0 : ℚ) ≤ 1 ∧
    foliageUpdate ⟨0, 0, 0⟩ ⟨1, 0, 0⟩ 1 ≠ specClampedUpdate 2 ⟨0, 0, 0⟩ ⟨1, 0, 0⟩ 1 ∧
    ¬ onSegment ⟨0, 0, 0⟩ ⟨1, 0, 0⟩ (foliageUpdate ⟨0, 0, 0⟩ ⟨1, 0, 0⟩ 1) := by
  have hcode : foliageUpdate ⟨0, 0, 0⟩ ⟨1, 0, 0⟩ 1 = ⟨2, 0, 0⟩ := by
    unfold foliageUpdate lerp3; norm_num
  have hspec : specClampedUpdate 2 ⟨0, 0, 0⟩ ⟨1, 0, 0⟩ 1 = ⟨1, 0, 0⟩ := by
    unfold specClampedUpdate lerp3; norm_num
  refine ⟨by norm_num, ?_, ?_⟩
  · rw [hcode, hspec]
    simp only [Vec3.mk.injEq, ne_eq]
    norm_num
  · rw [hcode]
    rintro ⟨s, hs0, hs1, heq⟩
    have hx := congrArg Vec3.x heq
    simp [lerp3] at hx
    linarith

/-- Claim C1 (amended): the per-frame position update of each instance
category computes `lerp(currentPosition, target, delta * rate)` with NO
clamping, with rate 2.0 for foliage and photo ornaments and 2.5 for lights;
whenever the frame delta satisfies `0 ≤ delta * rate ≤ 1` the updated
position lies on the segment between the old position and the target and
never overshoots the target. -/
theorem lerp_update_on_segment (p q : Vec3) (d : ℚ) :
    foliageUpdate p q d = lerp3 p q (d * 2) ∧
    photoUpdate p q d = lerp3 p q (d * 2) ∧
    lightUpdate p q d = lerp3 p q (d * (5 / 2)) ∧
    (0 ≤ d → d * 2 ≤ 1 → onSegment p q (foliageUpdate p q d)) ∧
    (0 ≤ d → d * 2 ≤ 1 → onSegment p q (photoUpdate p q d)) ∧
    (0 ≤ d → d * (5 / 2) ≤ 1 → onSegment p q (lightUpdate p q d)) := by
  refine ⟨rfl, rfl, rfl, ?_, ?_, ?_⟩ <;> intro h0 h1
  · exact ⟨d * 2, by linarith, h1, rfl⟩
  · exact ⟨d * 2, by linarith, h1, rfl⟩
  · exact ⟨d * (5 / 2), by linarith, h1, rfl⟩

/-- Claim C2, counterexample: with 60 available photos, the photo-ornament
count in CHAOS mode is 60 (all photos), not min(configured cap, photos) = 50:
the count is not independent of the scene mode. -/
theorem photo_count_mode_dependent :
    photoOrnamentCount SceneMode.CHAOS 60 = 60 ∧
    min configOrnamentCap 60 = 50 ∧
    photoOrnamentCount SceneMode.CHAOS 60 ≠ min configOrnamentCap 60 := by
  decide

/-- Claim C2 (amended): the foliage count is the configured 500 and the
fairy-light count the configured 200, independent of scene mode; the
photo-ornament count equals min(configured cap 50, available photos) in
FORMED mode but equals the full number of available photos in CHAOS mode. -/
theorem population_counts (n : ℕ) :
    configFoliageCount = 500 ∧ configLightCount = 200 ∧ configOrnamentCap = 50 ∧
    photoOrnamentCount SceneMode.FORMED n = min configOrnamentCap n ∧
    photoOrnamentCount SceneMode.CHAOS n = n := by
  refine ⟨rfl, rfl, rfl, ?_, rfl⟩
  simp [photoOrnamentCount]

/-- Helper for C3: the outer placement loop adds exactly one point per
iteration. -/
theorem placeAux_length (gen : ℕ → Vec3) :
    ∀ (n : ℕ) (acc : List (Vec3 × Bool)) (k : ℕ),
      (placeAux gen n acc k).length = n + acc.length := by
  intro n
  induction n with
  | zero => intro acc k; simp [placeAux]
  | succ m ih =>
      intro acc k
      simp only [placeAux]
      rw [ih]
      simp
      omega

/-- Claim C3: for every count and every sequence of random draws, the foliage
placement loop produces exactly `count` target positions — each point is
retried up to 50 attempts against the minimum-distance constraint, and if
all attempts fail the last generated candidate is accepted anyway, so
construction never fails or drops a point. -/
theorem placement_count_exact (gen : ℕ → Vec3) (count : ℕ) :
    (placePoints gen count).length = count := by
  simpa using placeAux_length gen count [] 0

/-- Helper for C4: a candidate returned with a `true` validity flag passed
the distance check against every already placed point. -/
theorem attemptLoop_valid_far (gen : ℕ → Vec3) (placed : List Vec3) :
    ∀ (fuel k : ℕ),
      (attemptLoop gen placed k fuel).2.1 = true →
      anyClose (attemptLoop gen placed k fuel).1 placed = false := by
  intro fuel
  induction fuel with
  | zero => intro k h; simp [attemptLoop] at h
  | succ m ih =>
      intro k h
      simp only [attemptLoop] at h ⊢
      by_cases hc : anyClose (gen k) placed
      · rw [if_pos hc] at h ⊢
        by_cases hm : m = 0
        · rw [if_pos hm] at h; simp at h
        · rw [if_neg hm] at h ⊢; exact ih (k + 1) h
      · rw [if_neg hc] at h ⊢
        exact Bool.eq_false_iff.mpr hc

/-- Helper for C4: `anyClose c placed = false` means `c` is at squared
distance at least `MIN_DISTANCE²` from every placed point. -/
theorem anyClose_eq_false_iff (c : Vec3) (placed : List Vec3) :
    anyClose c placed = false ↔
      ∀ p ∈ placed, MIN_DISTANCE ^ 2 ≤ distSq c p := by
  simp [anyClose, not_lt]

/-- Helper for C4: the pairwise relation maintained on the accumulator
(newest point first): every point whose validity flag is `true` is far from
every point placed before it. -/
def farRel (a b : Vec3 × Bool) : Prop :=
  a.2 = true → MIN_DISTANCE ^ 2 ≤ distSq a.1 b.1

/-- Helper for C4: the placement loop preserves the pairwise distance
invariant; on the returned (chronological) list, every valid later point is
far from every earlier point. -/
theorem placeAux_pairwise (gen : ℕ → Vec3) :
    ∀ (n : ℕ) (acc : List (Vec3 × Bool)) (k : ℕ),
      List.Pairwise farRel acc →
      List.Pairwise (fun a b => farRel b a) (placeAux gen n acc k) := by
  intro n
  induction n with
  | zero =>
      intro acc k hacc
      simpa [placeAux, List.pairwise_reverse] using hacc
  | succ m ih =>
      intro acc k hacc
      simp only [placeAux]
      refine ih _ _ (List.Pairwise.cons ?_ hacc)
      intro b hb hv
      have hfar := attemptLoop_valid_far gen (acc.map Prod.fst) 50 k hv
      rw [anyClose_eq_false_iff] at hfar
      exact hfar b.1 (List.mem_map_of_mem Prod.fst hb)

/-- Claim C4: in the foliage placement result, every point accepted by the
distance check (validity flag `true`, i.e. not via the 50-attempt fallback)
is at Euclidean distance ≥ MIN_DISTANCE = 2 from every point placed before
it (equivalently, squared distance ≥ MIN_DISTANCE²). -/
theorem placement_min_distance (gen : ℕ → Vec3) (count : ℕ) :
    List.Pairwise
      (fun a b => b.2 = true →
        MIN_DISTANCE ^ 2 ≤ distSq b.1 a.1 ∧ (2 : ℝ) ≤ distE b.1 a.1)
      (placePoints gen count) := by
  have h := placeAux_pairwise gen count [] 0 List.Pairwise.nil
  refine h.imp ?_
  intro a b hab hv
  have hsq := hab hv
  refine ⟨hsq, ?_⟩
  have h4 : (4 : ℝ) ≤ ((distSq b.1 a.1 : ℚ) : ℝ) := by
    have h4q : (4 : ℚ) ≤ distSq b.1 a.1 := by
      have hm : (MIN_DISTANCE ^ 2 : ℚ) = 4 := by norm_num [MIN_DISTANCE]
      linarith [hsq]
    exact_mod_cast h4q
  calc (2 : ℝ) = Real.sqrt 4 := by
        rw [show (4 : ℝ) = 2 ^ 2 by norm_num, Real.sqrt_sq (by norm_num)]
    _ ≤ distE b.1 a.1 := Real.sqrt_le_sqrt h4

/-- Claim C5: for two consecutive hand samples whose raw horizontal landmark
difference satisfies `|Δx| ≤ deadzone / SENSITIVITY` (0.002 / 5.0), the
emitted angular-velocity x component is exactly 0, while the emitted y
component is always `−SENSITIVITY · Δy`, with no deadzone applied to it. -/
theorem gesture_deadzone (last cur : HandPos) :
    (|cur.x - last.x| ≤ deadzone / SENSITIVITY → (emitMove last cur).1 = 0) ∧
    (emitMove last cur).2 = -(SENSITIVITY * (cur.y - last.y)) := by
  constructor
  · intro h
    have habs : |(cur.x - last.x) * SENSITIVITY| ≤ deadzone := by
      rw [abs_mul]
      have hS : |SENSITIVITY| = 5 := by norm_num [SENSITIVITY]
      rw [hS]
      have hd : deadzone / SENSITIVITY * 5 = deadzone := by
        norm_num [deadzone, SENSITIVITY]
      nlinarith [abs_nonneg (cur.x - last.x)]
    simp only [emitMove]
    rw [if_neg (not_lt.mpr habs)]
  · simp only [emitMove]
    ring

/-- Helper for C6: one polar-angle step keeps the angle strictly inside
`(1/10, piv − 1/10)` whenever it starts there. -/
theorem polarStep_preserves {α : Type} [LinearOrderedField α] (piv polar dy : α)
    (h0 : 1 / 10 < polar) (h1 : polar < piv - 1 / 10) :
    1 / 10 < polarStep piv polar dy ∧ polarStep piv polar dy < piv - 1 / 10 := by
  unfold polarStep
  by_cases hc : 1 / 10 < polar + dy ∧ polar + dy < piv - 1 / 10
  · rw [if_pos hc]; exact hc
  · rw [if_neg hc]; exact ⟨h0, h1⟩

/-- Helper for C6: the invariant extends to any sequence of updates. -/
theorem polarRun_preserves {α : Type} [LinearOrderedField α] (piv : α) :
    ∀ (dys : List α) (polar : α),
      1 / 10 < polar → polar < piv - 1 / 10 →
      1 / 10 < polarRun piv polar dys ∧ polarRun piv polar dys < piv - 1 / 10 := by
  intro dys
  induction dys with
  | nil => intro polar h0 h1; exact ⟨h0, h1⟩
  | cons d rest ih =>
      intro polar h0 h1
      have hstep := polarStep_preserves piv polar d h0 h1
      simpa [polarRun, List.foldl_cons] using ih (polarStep piv polar d) hstep.1 hstep.2

/-- Claim C6: the camera polar update is applied only when the candidate
`polar + signal.y` lies strictly inside `(0.1, π − 0.1)`, and is otherwise
dropped entirely (the angle is left unchanged, not clamped); consequently,
from any polar angle inside the interval, no sequence of per-frame updates
ever leaves `(0.1, π − 0.1)`. -/
theorem polar_clamp_invariant (polar : ℝ) (dys : List ℝ) :
    (∀ dy : ℝ, (1 / 10 < polar + dy ∧ polar + dy < Real.pi - 1 / 10 →
        polarStep Real.pi polar dy = polar + dy) ∧
      (¬ (1 / 10 < polar + dy ∧ polar + dy < Real.pi - 1 / 10) →
        polarStep Real.pi polar dy = polar)) ∧
    (1 / 10 < polar → polar < Real.pi - 1 / 10 →
      1 / 10 < polarRun Real.pi polar dys ∧
      polarRun Real.pi polar dys < Real.pi - 1 / 10) := by
  refine ⟨fun dy => ⟨fun hc => ?_, fun hc => ?_⟩, fun h0 h1 => ?_⟩
  · unfold polarStep; rw [if_pos hc]
  · unfold polarStep; rw [if_neg hc]
  · exact polarRun_preserves Real.pi dys polar h0 h1

/-- Claim C7: a gesture sample with label "Closed_Fist" and confidence
strictly greater than 0.4 sets the scene mode to FORMED regardless of the
prior mode, "Open_Palm" with confidence > 0.4 sets it to CHAOS, and any
sample with confidence ≤ 0.4 leaves the mode unchanged; in particular
confidence 0.5 triggers and confidence 0.3 does not. -/
theorem gesture_mode_change (mode : SceneMode) (score : ℚ) :
    (0.4 < score → gestureStep mode "Closed_Fist" score = SceneMode.FORMED) ∧
    (0.4 < score → gestureStep mode "Open_Palm" score = SceneMode.CHAOS) ∧
    (score ≤ 0.4 → ∀ label : String, gestureStep mode label score = mode) ∧
    gestureStep mode "Closed_Fist" 0.5 = SceneMode.FORMED ∧
    gestureStep mode "Closed_Fist" 0.3 = mode := by
  refine ⟨?_, ?_, ?_, ?_, ?_⟩
  · intro h; simp [gestureStep, if_pos h]
  · intro h; simp [gestureStep, if_pos h]
  · intro h label; simp [gestureStep, if_neg (not_lt.mpr h)]
  · have h : (0.4 : ℚ) < 0.5 := by norm_num
    simp [gestureStep, if_pos h]
  · have h : ¬ ((0.4 : ℚ) < 0.3) := by norm_num
    simp [gestureStep, if_neg h]

/-- Claim C8: a device-motion sample sets the snow flag and restarts the
5-second clear timer exactly when a previous sample is retained and
`|Δx| + |Δy| + |Δz| > 25`; a sample with delta sum ≤ 25, or the very first
sample, leaves the snow flag and the timer unchanged (only the retained
sample is updated). -/
theorem shake_snow_trigger (st : ShakeState) (x y z lx ly lz : ℚ) :
    (st.last = some (lx, ly, lz) → 25 < |x - lx| + |y - ly| + |z - lz| →
      handleMotion st x y z = ⟨some (x, y, z), true, some 5⟩) ∧
    (st.last = some (lx, ly, lz) → |x - lx| + |y - ly| + |z - lz| ≤ 25 →
      (handleMotion st x y z).snowing = st.snowing ∧
      (handleMotion st x y z).timer = st.timer) ∧
    (st.last = none →
      (handleMotion st x y z).snowing = st.snowing ∧
      (handleMotion st x y z).timer = st.timer) := by
  refine ⟨?_, ?_, ?_⟩
  · intro hl hd
    simp [handleMotion, hl, if_pos hd]
  · intro hl hd
    simp [handleMotion, hl, if_neg (not_lt.mpr hd)]
  · intro hl
    simp [handleMotion, hl]

/-- Claim C9: for every foliage instance index the per-frame scale is the
deterministic value `0.4 + (i % 5) · 0.1`, which always lies in
{0.4, 0.5, 0.6, 0.7, 0.8} and never exceeds 0.8 — independent of scene
mode, elapsed time and randomness (the definition takes only the index). -/
theorem foliage_scale_values (i : ℕ) :
    (scaleBase i = 0.4 ∨ scaleBase i = 0.5 ∨ scaleBase i = 0.6 ∨
      scaleBase i = 0.7 ∨ scaleBase i = 0.8) ∧ scaleBase i ≤ 0.8 := by
  have h : i % 5 = 0 ∨ i % 5 = 1 ∨ i % 5 = 2 ∨ i % 5 = 3 ∨ i % 5 = 4 := by omega
  have goal : scaleBase i = 0.4 ∨ scaleBase i = 0.5 ∨ scaleBase i = 0.6 ∨
      scaleBase i = 0.7 ∨ scaleBase i = 0.8 := by
    rcases h with h | h | h | h | h <;> rw [scaleBase, h] <;> norm_num
  refine ⟨goal, ?_⟩
  rcases goal with h | h | h | h | h <;> rw [h] <;> norm_num

/-- Claim C10: the fairy-light emissive intensity is exactly 0 in CHAOS mode,
and in FORMED mode equals `2 + 3·(sin(t·speed + offset) + 1)/2`, which always
lies in [2, 5]; a light in FORMED mode is never fully dark. -/
theorem light_emissive_range (t speed offset : ℝ) :
    lightIntensity SceneMode.CHAOS t speed offset = 0 ∧
    lightIntensity SceneMode.FORMED t speed offset =
      2 + 3 * (Real.sin (t * speed + offset) + 1) / 2 ∧
    2 ≤ lightIntensity SceneMode.FORMED t speed offset ∧
    lightIntensity SceneMode.FORMED t speed offset ≤ 5 ∧
    lightIntensity SceneMode.FORMED t speed offset ≠ 0 := by
  have hform : lightIntensity SceneMode.FORMED t speed offset =
      2 + (Real.sin (t * speed + offset) + 1) / 2 * 3 := by
    simp [lightIntensity]
  have hlo := Real.neg_one_le_sin (t * speed + offset)
  have hhi := Real.sin_le_one (t * speed + offset)
  refine ⟨by simp [lightIntensity], by rw [hform]; ring, ?_, ?_, ?_⟩
  · rw [hform]; nlinarith
  · rw [hform]; nlinarith
  · rw [hform]; nlinarith

end ChristmasTree
